import Mathlib

/-!
Shallow embedding of the `charunit` Go module (a Viam "generic service" that
pulses GPIO pin "11" high for 60 seconds on command) and proofs about it.

The embedding follows the module source file: `Config.Validate`, the service
struct `charUnitCharUnitLoad`, `DoCommand`, the background pulse routine
`bioCharProcess`, `Close`, and `Reconfigure`.  External collaborators
(`board.Board`, `board.GPIOPin`, `resource.Dependencies`,
`resource.NativeConfig`) are modelled by the shape of the interface the module
consumes: a board resolves a pin name to a pin or an error, a pin write either
succeeds or returns an error.

Side effects of the pulse routine (pin writes, the sleep) are modelled as an
explicit event trace; spawning `go bioCharProcess(s)` is modelled by the
dispatch outcome carrying the denotation of the detached task.  Durations are
in nanoseconds, matching `time.Duration` in Go.
-/

namespace CharLoad

/-- An error returned by a pin write (`pin.Set`), modelled by its message. -/
abbrev IOErr := String

/-- An error returned by board pin lookup (`GPIOPinByName`), modelled by its message. -/
abbrev BoardErr := String

/-- External collaborator `board.GPIOPin`: a pin write `Set(ctx, high, extra)`
either succeeds (`none`) or fails with an error, as a function of the level
written. -/
structure GPIOPin where
  setResult : Bool → Option IOErr

/-- External collaborator `board.Board`: `GPIOPinByName` resolves a pin name to
a pin handle or fails. -/
structure Board where
  gpioPinByName : String → Except BoardErr GPIOPin

/-- The `Config` struct of the module: the single field `Board string `json:"board"``. -/
structure Config where
  board : String
deriving DecidableEq, Repr

/-- Model of `utils.NewConfigValidationFieldRequiredError(path, field)`: the error
carries the JSON path and the name of the missing field. -/
inductive ConfigErr where
  | fieldRequired (path : String) (field : String)
deriving DecidableEq, Repr

/-- Embedding of `func (cfg *Config) Validate(path string) ([]string, error)`:
builds `deps := []string{cfg.Board}`, errors when `cfg.Board == ""`, and
otherwise returns `deps`. -/
def Config.Validate (cfg : Config) (path : String) : Except ConfigErr (List String) :=
  let deps := [cfg.board]
  if cfg.board = "" then
    .error (.fieldRequired path "board")
  else
    .ok deps

/-- The service struct `charUnitCharUnitLoad`.  `cancelled` models the state of
`cancelCtx` after `cancelFunc` has been called; `b` is the bound
`board.Board`, which is `nil` (`none`) until a reconfiguration binds it. -/
structure CharUnitCharUnitLoad where
  name : String
  cfg : Config
  cancelled : Bool
  b : Option Board

/-- One observable step of the pulse routine: a pin lookup, a pin write
(`Set`) attempt at the given level, or a sleep for the given number of
nanoseconds. -/
inductive PulseEvent where
  | lookupPin (name : String)
  | setPin (high : Bool)
  | sleep (ns : Nat)
deriving DecidableEq, Repr

/-- Whether a pulse event is a pin write (`Set`) attempt. -/
def PulseEvent.isSet : PulseEvent → Bool
  | .setPin _ => true
  | _ => false

/-- How the pulse routine `bioCharProcess` terminates.  The Go routine returns
nothing and logs errors; each early `return` path is one constructor here. -/
inductive PulseOutcome where
  | boardNil
  | pinNotFound (e : BoardErr)
  | setHighFailed (e : IOErr)
  | setLowFailed (e : IOErr)
  | success
deriving DecidableEq, Repr

/-- The value of `time.Second` in Go, in nanoseconds. -/
def timeSecond : Nat := 1000000000

/-- Embedding of `func bioCharProcess(s *charUnitCharUnitLoad)`: if the board is nil, log
and return; resolve pin "11" (on error, log and return); set the pin high (on
error, log and return); `time.Sleep(60 * time.Second)`; set the pin low (on
error, log and return).  The result is the trace of pin lookups, `Set`
attempts and sleeps, paired with the termination outcome.  The routine reads
only `s.b`: it uses `context.Background()` for the writes and a plain
`time.Sleep`, never `s.cancelCtx`. -/
def bioCharProcess (s : CharUnitCharUnitLoad) : List PulseEvent × PulseOutcome :=
  match s.b with
  | none => ([], .boardNil)
  | some b =>
    match b.gpioPinByName "11" with
    | .error e => ([.lookupPin "11"], .pinNotFound e)
    | .ok pin =>
      match pin.setResult true with
      | some e => ([.lookupPin "11", .setPin true], .setHighFailed e)
      | none =>
        match pin.setResult false with
        | some e =>
          ([.lookupPin "11", .setPin true, .sleep (60 * timeSecond), .setPin false],
            .setLowFailed e)
        | none =>
          ([.lookupPin "11", .setPin true, .sleep (60 * timeSecond), .setPin false],
            .success)

/-- Total nanoseconds the pulse task spends holding (sleeping) in its trace. -/
def holdNs (t : List PulseEvent × PulseOutcome) : Nat :=
  (t.1.filterMap fun e =>
    match e with
    | .sleep ns => some ns
    | _ => none).sum

/-- A pulse task started at `startNs` is in its hold at time `now` when `now`
lies inside the half-open hold interval. -/
def pulseActiveAt (startNs : Nat) (t : List PulseEvent × PulseOutcome) (now : Nat) : Prop :=
  startNs ≤ now ∧ now < startNs + holdNs t

/-- A value in the `map[string]interface{}` command: a Go `interface{}` that
is a string, a number, a boolean, or nil. -/
inductive Value where
  | str (s : String)
  | int (n : Int)
  | bool (b : Bool)
  | null
deriving DecidableEq, Repr

/-- Whether the dynamic type of the value is `string`, i.e. whether the type
assertion `value.(string)` succeeds. -/
def Value.isString : Value → Bool
  | .str _ => true
  | _ => false

/-- The errors `DoCommand` builds with `fmt.Errorf`, by what they carry:
`unknown DoCommand value for <key> = <value>`, `unknown DoCommand key = <key>`,
and the fall-through `unknown DoCommand command map: <cmd>` reached only when
the range loop has no iteration (the empty map). -/
inductive DoErr where
  | unknownValue (key : String) (value : Value)
  | unknownKey (key : String)
  | unknownCommandMap (cmd : List (String × Value))
deriving DecidableEq, Repr

/-- Whether a `DoCommand` error is the `unknown DoCommand key` error. -/
def DoErr.isUnknownKeyErr : DoErr → Bool
  | .unknownKey _ => true
  | _ => false

/-- Denotation of one `DoCommand` call: `success spawned` is the
`return nil, nil` path together with the detached tasks launched with `go`
(each given by its trace and outcome); `failure e` is a `return nil, err`
path; `panicked v` is a run-time panic of the unguarded type assertion
`value.(string)` on the non-string value `v`. -/
inductive DoOutcome where
  | success (spawned : List (List PulseEvent × PulseOutcome))
  | failure (e : DoErr)
  | panicked (v : Value)

/-- Whether the outcome is a returned `unknown DoCommand key` error. -/
def DoOutcome.isUnknownKeyOutcome : DoOutcome → Bool
  | .failure e => e.isUnknownKeyErr
  | _ => false

/-- Whether the outcome is a returned `unknown DoCommand value` error. -/
def DoOutcome.isUnknownValueOutcome : DoOutcome → Bool
  | .failure (.unknownValue _ _) => true
  | _ => false

/-- Embedding of `func (s *charUnitCharUnitLoad) DoCommand(ctx, cmd)`.  The command map is
given in its (arbitrary) Go iteration order as an association list.  Every
branch of the range loop returns, so only the first iterated entry is
examined: key `"char_load"` asserts `value.(string)` (panicking on a
non-string), dispatches `"start"` to `go bioCharProcess(s)` then
`return nil, nil`, and any other string to the unknown-value error; any other
key returns the unknown-key error; the loop body never running (empty map)
falls through to the unknown-command-map error.  `DoCommand` writes no field
of `s`. -/
def DoCommand (s : CharUnitCharUnitLoad) (cmd : List (String × Value)) : DoOutcome :=
  match cmd with
  | [] => .failure (.unknownCommandMap cmd)
  | (key, value) :: _ =>
    if key = "char_load" then
      match value with
      | .str command =>
        if command = "start" then
          .success [bioCharProcess s]
        else
          .failure (.unknownValue key value)
      | _ => .panicked value
    else
      .failure (.unknownKey key)

/-- Embedding of `func (s *charUnitCharUnitLoad) Close(context.Context) error`: calls
`s.cancelFunc()` (cancelling `cancelCtx`) and returns `nil`. -/
def Close (s : CharUnitCharUnitLoad) : CharUnitCharUnitLoad × Option String :=
  ({ s with cancelled := true }, none)

/-- Model of `resource.Config` as `Reconfigure` consumes it: `resource.NativeConfig`
either extracts a native `Config` or fails. -/
inductive RawConf where
  | valid (c : Config)
  | invalid (e : String)

/-- Model of `resource.NativeConfig[*Config](rawConf)`. -/
def nativeConfig : RawConf → Except String Config
  | .valid c => .ok c
  | .invalid e => .error e

/-- Model of `resource.Dependencies` as consumed here: named boards available for
resolution. -/
abbrev Dependencies := List (String × Board)

/-- Model of `board.FromDependencies(deps, name)`: resolve the named board from the
dependency set, or fail. -/
def boardFromDependencies (deps : Dependencies) (nm : String) : Except String Board :=
  match deps.lookup nm with
  | some b => .ok b
  | none => .error ("missing from dependencies: " ++ nm)

/-- The errors `Reconfigure` returns: a `NativeConfig` failure passed through,
or the wrapped board-resolution failure carrying the board name. -/
inductive ReconfigureErr where
  | nativeConfigFailed (e : String)
  | boardNotFound (boardName : String) (wrapped : String)
deriving DecidableEq, Repr

/-- Embedding of `func (s *charUnitCharUnitLoad) Reconfigure(ctx, deps, rawConf) error`:
extract the native config (on error, return it); resolve the board named by
`conf.Board` from `deps` (on error, return the wrapped error without touching
`s.b`); only on success assign `s.b = b`. -/
def Reconfigure (s : CharUnitCharUnitLoad) (deps : Dependencies) (rawConf : RawConf) :
    CharUnitCharUnitLoad × Option ReconfigureErr :=
  match nativeConfig rawConf with
  | .error e => (s, some (.nativeConfigFailed e))
  | .ok conf =>
    match boardFromDependencies deps conf.board with
    | .error e => (s, some (.boardNotFound conf.board e))
    | .ok b => ({ s with b := some b }, none)

/-! Concrete mock collaborators, used by witnesses and counterexamples. -/

/-- A healthy mock pin: every write succeeds. -/
def okPin : GPIOPin := ⟨fun _ => none⟩

/-- A healthy mock board: every pin name resolves to `okPin`. -/
def healthyBoard : Board := ⟨fun _ => .ok okPin⟩

/-- A mock board on which every pin lookup fails. -/
def failBoard : Board := ⟨fun nm => .error ("pin not found: " ++ nm)⟩

/-- A service instance bound to the healthy board. -/
def s1 : CharUnitCharUnitLoad := ⟨"foo", ⟨"b1"⟩, false, some healthyBoard⟩

/-- A service instance bound to the failing-lookup board. -/
def s2 : CharUnitCharUnitLoad := ⟨"foo", ⟨"b1"⟩, false, some failBoard⟩

/-! Theorems settling the claims. -/

/-- C1: for the command map `{"char_load": "start"}` (under any iteration
extension), on a service whose board resolves pin "11" and whose writes
succeed, `DoCommand` takes the success path having spawned exactly the
`bioCharProcess` task, and that task looks up pin "11", sets it high, holds
for `60 * time.Second`, then sets it low.  The spawned task is
`bioCharProcess s`, a function of the service alone, so neither the pin name
"11" nor the 60-second duration comes from the command payload. -/
theorem claim_C1 (s : CharUnitCharUnitLoad) (b : Board) (pin : GPIOPin)
    (hb : s.b = some b) (hpin : b.gpioPinByName "11" = .ok pin)
    (hhigh : pin.setResult true = none) (hlow : pin.setResult false = none) :
    (∀ rest, DoCommand s (("char_load", Value.str "start") :: rest) =
      .success [bioCharProcess s]) ∧
    bioCharProcess s =
      ([.lookupPin "11", .setPin true, .sleep (60 * timeSecond), .setPin false],
        .success) := by
  constructor
  · intro rest
    simp [DoCommand]
  · simp [bioCharProcess, hb, hpin, hhigh, hlow]

/-- C1 witness: the hypotheses of `claim_C1` hold, and its conclusion
evaluates, at the healthy mock service `s1`. -/
theorem claim_C1_witness :
    s1.b = some healthyBoard ∧
    healthyBoard.gpioPinByName "11" = .ok okPin ∧
    okPin.setResult true = none ∧
    okPin.setResult false = none ∧
    ((∀ rest, DoCommand s1 (("char_load", Value.str "start") :: rest) =
        .success [bioCharProcess s1]) ∧
      bioCharProcess s1 =
        ([.lookupPin "11", .setPin true, .sleep (60 * timeSecond), .setPin false],
          .success)) :=
  ⟨rfl, rfl, rfl, rfl, claim_C1 s1 healthyBoard okPin rfl rfl rfl rfl⟩

/-- C2: for EVERY service state — in particular states whose board is nil,
whose pin lookup fails, or whose pin writes fail — and every iteration
extension of the start command, `DoCommand` takes the `return nil, nil`
success path immediately, carrying the pulse only as a detached spawned task:
the dispatch result is the success constructor unconditionally, so no failure
inside the detached task is ever the value returned to the caller. -/
theorem claim_C2 (s : CharUnitCharUnitLoad) (rest : List (String × Value)) :
    DoCommand s (("char_load", Value.str "start") :: rest) =
      .success [bioCharProcess s] := by
  simp [DoCommand]

/-- C3 (code evidence): `Close` returns a nil error and cancels the context,
but the pulse routine is insensitive to that cancellation — `bioCharProcess`
reads only the board field, never the cancel context — so on the healthy
service a pulse computed after `Close` still has its full trace, including
the entire 60-second hold: closing does not cancel an in-flight pulse task. -/
theorem claim_C3 :
    (∀ s, (Close s).2 = none) ∧
    (∀ s, bioCharProcess (Close s).1 = bioCharProcess s) ∧
    (bioCharProcess (Close s1).1).1 =
      [.lookupPin "11", .setPin true, .sleep (60 * timeSecond), .setPin false] :=
  ⟨fun _ => rfl, fun _ => rfl, rfl⟩

/-- C4 (amended): `DoCommand` has no concurrency guard and never mutates the
service, so every start command — including one issued while a pulse is in
flight — spawns a fresh detached pulse task; for any two start instants less
than the 60-second hold apart, both spawned tasks are simultaneously inside
their holds at the later instant: two pulse sequences active at once. -/
theorem claim_C4 (s : CharUnitCharUnitLoad) (b : Board) (pin : GPIOPin)
    (hb : s.b = some b) (hpin : b.gpioPinByName "11" = .ok pin)
    (hhigh : pin.setResult true = none) (hlow : pin.setResult false = none)
    (t1 t2 : Nat) (h12 : t1 ≤ t2) (hclose : t2 < t1 + 60 * timeSecond) :
    DoCommand s [("char_load", Value.str "start")] = .success [bioCharProcess s] ∧
    holdNs (bioCharProcess s) = 60 * timeSecond ∧
    pulseActiveAt t1 (bioCharProcess s) t2 ∧
    pulseActiveAt t2 (bioCharProcess s) t2 := by
  have htrace : bioCharProcess s =
      ([.lookupPin "11", .setPin true, .sleep (60 * timeSecond), .setPin false],
        .success) := by
    simp [bioCharProcess, hb, hpin, hhigh, hlow]
  have hhold : holdNs (bioCharProcess s) = 60 * timeSecond := by
    rw [htrace]; rfl
  refine ⟨by simp [DoCommand], hhold, ⟨h12, ?_⟩, ⟨le_refl t2, ?_⟩⟩
  · rw [hhold]; exact hclose
  · rw [hhold]; unfold timeSecond; omega

/-- C4 witness: the hypotheses of `claim_C4` hold, and its conclusion
evaluates, at the healthy service with start instants 0 and 1. -/
theorem claim_C4_witness :
    s1.b = some healthyBoard ∧
    healthyBoard.gpioPinByName "11" = .ok okPin ∧
    okPin.setResult true = none ∧
    okPin.setResult false = none ∧
    (0 : Nat) ≤ 1 ∧ 1 < 0 + 60 * timeSecond ∧
    (DoCommand s1 [("char_load", Value.str "start")] = .success [bioCharProcess s1] ∧
      holdNs (bioCharProcess s1) = 60 * timeSecond ∧
      pulseActiveAt 0 (bioCharProcess s1) 1 ∧
      pulseActiveAt 1 (bioCharProcess s1) 1) :=
  ⟨rfl, rfl, rfl, rfl, by decide, by decide,
    claim_C4 s1 healthyBoard okPin rfl rfl rfl rfl 0 1 (by decide) (by decide)⟩

/-- C4 counterexample: on the healthy service `s1`, `DoCommand` leaves the
service unchanged and spawns a pulse task on every start command, so a second
start dispatched 1ns into the hold of the first spawns a second task; both
tasks are inside their 60-second holds at instant 1ns, so two pulse sequences
are active at once on one instance — refuting the at-most-one-pulse
invariant. -/
theorem claim_C4_counterexample :
    DoCommand s1 [("char_load", Value.str "start")] = .success [bioCharProcess s1] ∧
    holdNs (bioCharProcess s1) = 60 * timeSecond ∧
    pulseActiveAt 0 (bioCharProcess s1) 1 ∧
    pulseActiveAt 1 (bioCharProcess s1) 1 :=
  ⟨by simp [DoCommand], rfl, ⟨by decide, by decide⟩, ⟨by decide, by decide⟩⟩

/-- C5: `Validate` at path "" returns the required-field error for "board"
when the board field is the empty string, and for every non-empty board name
returns no error and exactly the singleton dependency list `[board]`. -/
theorem claim_C5 (bname : String) (h : bname ≠ "") :
    Config.Validate ⟨""⟩ "" = .error (.fieldRequired "" "board") ∧
    Config.Validate ⟨bname⟩ "" = .ok [bname] := by
  exact ⟨rfl, by simp [Config.Validate, h]⟩

/-- C5 witness: the hypothesis of `claim_C5` holds, and its conclusion
evaluates, at the board name "b1". -/
theorem claim_C5_witness :
    "b1" ≠ "" ∧
    (Config.Validate ⟨""⟩ "" = .error (.fieldRequired "" "board") ∧
      Config.Validate ⟨"b1"⟩ "" = .ok ["b1"]) :=
  ⟨by decide, claim_C5 "b1" (by decide)⟩

/-- C6 counterexample: mapping "char_load" to the non-string value `1` — a
value other than "start" — makes `DoCommand` panic on the unguarded type
assertion instead of returning the unknown-value error. -/
theorem claim_C6_counterexample :
    DoCommand s1 [("char_load", Value.int 1)] = .panicked (Value.int 1) ∧
    (DoCommand s1 [("char_load", Value.int 1)]).isUnknownValueOutcome = false :=
  ⟨rfl, rfl⟩

/-- C6 (amended): for every command whose first examined entry maps
"char_load" to a STRING value other than "start", `DoCommand` returns the
unknown-value error carrying the key and the value, without panicking and
without spawning a pulse (only the success outcome carries spawned tasks);
for a non-string value it panics instead (see C9). -/
theorem claim_C6 (s : CharUnitCharUnitLoad) (v : String) (hv : v ≠ "start")
    (rest : List (String × Value)) :
    DoCommand s (("char_load", Value.str v) :: rest) =
      .failure (.unknownValue "char_load" (Value.str v)) := by
  simp [DoCommand, hv]

/-- C6 witness: the hypothesis of `claim_C6` holds, and its conclusion
evaluates, at the string value "stop". -/
theorem claim_C6_witness :
    "stop" ≠ "start" ∧
    DoCommand s1 [("char_load", Value.str "stop")] =
      .failure (.unknownValue "char_load" (Value.str "stop")) :=
  ⟨by decide, claim_C6 s1 "stop" (by decide) []⟩

/-- C7 counterexample: on the empty command map `DoCommand` returns the
catch-all unknown-command-map error, which is not the unknown-key error and
carries no key. -/
theorem claim_C7_counterexample :
    DoCommand s1 [] = .failure (.unknownCommandMap []) ∧
    (DoCommand s1 []).isUnknownKeyOutcome = false :=
  ⟨rfl, rfl⟩

/-- C7 (amended): every NON-empty command map containing no "char_load" key
makes `DoCommand` return the unknown-key error carrying the first examined
key, spawning no pulse; the empty map instead yields the distinct
unknown-command-map error. -/
theorem claim_C7 (s : CharUnitCharUnitLoad) (k : String) (v : Value)
    (rest : List (String × Value))
    (hk : "char_load" ∉ ((k, v) :: rest).map Prod.fst) :
    DoCommand s ((k, v) :: rest) = .failure (.unknownKey k) ∧
    DoCommand s [] = .failure (.unknownCommandMap []) := by
  have hk1 : k ≠ "char_load" := by
    intro h
    exact hk (by simp [h])
  exact ⟨by simp [DoCommand, hk1], rfl⟩

/-- C7 witness: the hypothesis of `claim_C7` holds, and its conclusion
evaluates, at the singleton map with key "bogus". -/
theorem claim_C7_witness :
    "char_load" ∉ (([("bogus", Value.null)] : List (String × Value)).map Prod.fst) ∧
    (DoCommand s1 [("bogus", Value.null)] = .failure (.unknownKey "bogus") ∧
      DoCommand s1 [] = .failure (.unknownCommandMap [])) :=
  ⟨by decide, claim_C7 s1 "bogus" Value.null [] (by decide)⟩

/-- C8: whenever the lookup of pin "11" on the bound board fails, the pulse
routine ends with that pin-lookup error and its trace contains no `Set`
attempt at all — neither the set-high nor the set-low write is performed. -/
theorem claim_C8 (s : CharUnitCharUnitLoad) (b : Board) (e : BoardErr)
    (hb : s.b = some b) (hpin : b.gpioPinByName "11" = .error e) :
    bioCharProcess s = ([.lookupPin "11"], .pinNotFound e) ∧
    (bioCharProcess s).1.all (fun ev => !ev.isSet) = true := by
  have h : bioCharProcess s = ([.lookupPin "11"], .pinNotFound e) := by
    simp [bioCharProcess, hb, hpin]
  exact ⟨h, by rw [h]; rfl⟩

/-- C8 witness: the hypotheses of `claim_C8` hold, and its conclusion
evaluates, at the service bound to the failing-lookup board. -/
theorem claim_C8_witness :
    s2.b = some failBoard ∧
    failBoard.gpioPinByName "11" = .error "pin not found: 11" ∧
    (bioCharProcess s2 = ([.lookupPin "11"], .pinNotFound "pin not found: 11") ∧
      (bioCharProcess s2).1.all (fun ev => !ev.isSet) = true) :=
  ⟨rfl, rfl, claim_C8 s2 failBoard "pin not found: 11" rfl rfl⟩

/-- C9: when the value under the key "char_load" is not a string, the
unguarded type assertion `value.(string)` panics: `DoCommand` ends in the
panic outcome rather than an error return. -/
theorem claim_C9 (s : CharUnitCharUnitLoad) (v : Value) (hv : v.isString = false)
    (rest : List (String × Value)) :
    DoCommand s (("char_load", v) :: rest) = .panicked v := by
  cases v with
  | str sv => simp [Value.isString] at hv
  | int n => rfl
  | bool b => rfl
  | null => rfl

/-- C9 witness: the hypothesis of `claim_C9` holds, and its conclusion
evaluates, at the nil value. -/
theorem claim_C9_witness :
    Value.null.isString = false ∧
    DoCommand s1 [("char_load", Value.null)] = .panicked Value.null :=
  ⟨rfl, claim_C9 s1 Value.null rfl []⟩

/-- C10: when the board named by the (valid) native config cannot be resolved
from the dependency set, `Reconfigure` returns the wrapped board-resolution
error and leaves the whole service — in particular the previously bound board
reference `s.b` — unchanged. -/
theorem claim_C10 (s : CharUnitCharUnitLoad) (deps : Dependencies) (c : Config)
    (e : String) (hres : boardFromDependencies deps c.board = .error e) :
    (Reconfigure s deps (.valid c)).2 = some (.boardNotFound c.board e) ∧
    (Reconfigure s deps (.valid c)).1 = s ∧
    (Reconfigure s deps (.valid c)).1.b = s.b := by
  simp [Reconfigure, nativeConfig, hres]

/-- C10 witness: the hypothesis of `claim_C10` holds, and its conclusion
evaluates, for the service `s1` (already bound to a board), the empty
dependency set, and the config naming board "b1". -/
theorem claim_C10_witness :
    boardFromDependencies [] (Config.mk "b1").board =
      .error "missing from dependencies: b1" ∧
    ((Reconfigure s1 [] (.valid ⟨"b1"⟩)).2 =
        some (.boardNotFound "b1" "missing from dependencies: b1") ∧
      (Reconfigure s1 [] (.valid ⟨"b1"⟩)).1 = s1 ∧
      (Reconfigure s1 [] (.valid ⟨"b1"⟩)).1.b = s1.b) :=
  ⟨rfl, claim_C10 s1 [] ⟨"b1"⟩ "missing from dependencies: b1" rfl⟩

end CharLoad
